import Mathlib

/-!
Shallow embedding of the connection-and-resource lifecycle layer of the
datacube index facade (src/datacube/index/index.py), together with models
of its external collaborators (the connection handle, the resource
registries and the default-document function) taken from the spec's
collaborator contracts, since their code is not part of this repository
slice.  Stateful Python methods become explicit state passing; raised
exceptions become an error component of the result.
-/

set_option autoImplicit false

namespace Datacube

/-- Error kinds of this layer, following the spec's error taxonomy:
connectivity errors from the connection handle, schema-initialization
errors from the init step, and seeding errors raised while adding a
default metadata-type document (the failing document is carried). -/
inductive DcError where
  | connectivity
  | schemaInit
  | seeding (doc : String)
  deriving DecidableEq, Repr

/-- Modelled from the spec: the configuration object holding backing-store
connection parameters.  `url` is the store address; `good` says whether a
connection to this store can actually be established and validated;
`hasSchema` says whether the backing store already carries an initialized
schema (so a later `init` is not a first-time initialization). -/
structure Config where
  url : String
  good : Bool
  hasSchema : Bool
  deriving DecidableEq, Repr

/-- Modelled from the spec: the external `PostgresDb` connection handle.
`url` is its canonical address; `initialized` is the backing store's
schema state; `idleConnections` counts idle sub-connections held by the
handle; `initFails` and `failingDocs` are fault-injection state standing
for the spec's SchemaInitializationError and DefaultSeedingError;
`initCalls` records the permission flags received by `init` (to observe
pass-through); `application_name` and `validated` record what the
construct-from-configuration operation received. -/
structure PostgresDb where
  url : String
  initialized : Bool
  idleConnections : Nat
  initFails : Bool
  failingDocs : List String
  initCalls : List Bool
  application_name : Option String
  validated : Bool
  deriving DecidableEq, Repr

/-- Modelled from the spec: construct-from-configuration on the connection
handle.  It receives the application label and the eager-validation flag;
when validation is requested and connectivity cannot be confirmed it
raises the connectivity error before returning, otherwise it returns a
handle recording the label and whether it was validated. -/
def PostgresDb.from_config (config : Config) (application_name : Option String)
    (validate_connection : Bool) : Except DcError PostgresDb :=
  if validate_connection && !config.good then
    .error .connectivity
  else
    .ok { url := config.url
        , initialized := config.hasSchema
        , idleConnections := 1
        , initFails := false
        , failingDocs := []
        , initCalls := []
        , application_name := application_name
        , validated := validate_connection }

/-- Modelled from the spec: idempotent schema initialization on the
connection handle; returns whether this call was a first-time
initialization and records the permission flag it received.  When the
fault-injection flag is set it raises the schema-initialization error. -/
def PostgresDb.init (db : PostgresDb) (with_permissions : Bool) :
    Except DcError (Bool × PostgresDb) :=
  if db.initFails then
    .error .schemaInit
  else
    .ok (!db.initialized,
         { db with initialized := true, initCalls := db.initCalls ++ [with_permissions] })

/-- Modelled from the spec: idle-connection release on the connection
handle; releases every idle sub-connection and nothing else. -/
def PostgresDb.close (db : PostgresDb) : PostgresDb :=
  { db with idleConnections := 0 }

/-- Modelled from the spec: a metadata-type record, the registry's input
shape parsed from a document. -/
structure MetadataType where
  doc : String
  deriving DecidableEq, Repr

/-- Modelled from the spec: the metadata-type registry; wraps the
connection handle and records every added record together with the
table-lock flag the add was requested with. -/
structure MetadataTypeResource where
  db : PostgresDb
  added : List (MetadataType × Bool)
  deriving DecidableEq, Repr

/-- Modelled from the spec: parse a document into the registry's input
shape. -/
def MetadataTypeResource.from_doc (_self : MetadataTypeResource) (doc : String) :
    MetadataType :=
  { doc := doc }

/-- Modelled from the spec: add a record through the registry with an
explicit table-lock mode.  The backing store's fault-injection set makes
the add raise a seeding error for the listed documents. -/
def MetadataTypeResource.add (self : MetadataTypeResource) (record : MetadataType)
    (allow_table_lock : Bool) : Except DcError MetadataTypeResource :=
  if record.doc ∈ self.db.failingDocs then
    .error (.seeding record.doc)
  else
    .ok { self with added := self.added ++ [(record, allow_table_lock)] }

/-- Modelled from the spec: the product registry, constructed with the
connection handle and the already-constructed metadata-type registry. -/
structure ProductResource where
  db : PostgresDb
  metadata_type_resource : MetadataTypeResource
  deriving DecidableEq, Repr

/-- Modelled from the spec: the dataset registry, constructed with the
connection handle and the already-constructed product registry. -/
structure DatasetResource where
  db : PostgresDb
  product_resource : ProductResource
  deriving DecidableEq, Repr

/-- Modelled from the spec: the user registry, constructed with the
connection handle alone. -/
structure UserResource where
  db : PostgresDb
  deriving DecidableEq, Repr

/-- Modelled from the spec: the process-wide function yielding the fixed
ordered set of built-in default metadata-type documents. -/
def default_metadata_type_docs : List String :=
  ["eo", "telemetry"]

/-- The index facade (class Index of index.py): one owned connection
handle and the four resource managers exposed as named attributes. -/
structure Index where
  _db : PostgresDb
  users : UserResource
  metadata_types : MetadataTypeResource
  products : ProductResource
  datasets : DatasetResource
  deriving DecidableEq, Repr

/-- The kinds of resource manager, used to talk about the order in which
the constructor builds them. -/
inductive ResourceKind where
  | users
  | metadata_types
  | products
  | datasets
  deriving DecidableEq, Repr, BEq

/-- Embedding of Index.__init__(self, db): stores the connection handle
and constructs the four resource managers, each receiving that same
handle; products receives the already-constructed metadata_types and
datasets the already-constructed products. -/
def Index.create (db : PostgresDb) : Index :=
  let users : UserResource := { db := db }
  let metadata_types : MetadataTypeResource := { db := db, added := [] }
  let products : ProductResource := { db := db, metadata_type_resource := metadata_types }
  let datasets : DatasetResource := { db := db, product_resource := products }
  { _db := db
  , users := users
  , metadata_types := metadata_types
  , products := products
  , datasets := datasets }

/-- The order in which Index.__init__ runs the four resource-manager
constructor calls, read off the source lines: users, then
metadata_types, then products, then datasets. -/
def Index.constructionOrder : List ResourceKind :=
  [.users, .metadata_types, .products, .datasets]

/-- Embedding of the Index.url property: returns the connection handle's
canonical address. -/
def Index.url (self : Index) : String :=
  self._db.url

/-- Embedding of Index.from_config: delegates to the connection handle's
construct-from-configuration operation, passing the application label and
the validation flag through, then wires the facade around the returned
handle; any error propagates unchanged. -/
def Index.from_config (config : Config) (application_name : Option String)
    (validate_connection : Bool) : Except DcError Index :=
  match PostgresDb.from_config config application_name validate_connection with
  | .error e => .error e
  | .ok db => .ok (Index.create db)

/-- The seeding loop inside Index.init_db: for each document, parse it
via from_doc and add it through the metadata-type registry with
allow_table_lock set; on an error the loop stops and the error
propagates, keeping the registry state reached so far. -/
def seedDefaults (mt : MetadataTypeResource) (docs : List String) :
    Except DcError Unit × MetadataTypeResource :=
  match docs with
  | [] => (.ok (), mt)
  | d :: rest =>
    match mt.add (mt.from_doc d) true with
    | .error e => (.error e, mt)
    | .ok mt' => seedDefaults mt' rest

/-- Embedding of Index.init_db(with_default_types, with_permissions):
calls the connection handle's init with the permission flag, and when it
reports a first-time initialization and defaults were requested, seeds
every default metadata-type document; returns the boolean init reported.
Errors propagate unchanged, with the state reached so far. -/
def Index.init_db (self : Index) (with_default_types with_permissions : Bool) :
    Except DcError Bool × Index :=
  match self._db.init with_permissions with
  | .error e => (.error e, self)
  | .ok (is_new, db') =>
    let self' : Index := { self with _db := db' }
    if is_new && with_default_types then
      let (r, mt') := seedDefaults self'.metadata_types default_metadata_type_docs
      let self'' : Index := { self' with metadata_types := mt' }
      match r with
      | .ok _ => (.ok is_new, self'')
      | .error e => (.error e, self'')
    else
      (.ok is_new, self')

/-- Embedding of Index.close: releases the idle connections of the
underlying handle; the facade stays usable afterwards. -/
def Index.close (self : Index) : Index :=
  { self with _db := self._db.close }

/-- Embedding of Index.__enter__: returns the instance itself. -/
def Index.enter (self : Index) : Index :=
  self

/-- Embedding of Index.__exit__(type_, value, traceback): calls close and
returns None, which Python treats as falsy, so exceptions are never
suppressed.  The Bool result is the truthiness of the returned value. -/
def Index.exit (self : Index) (_type : Option DcError) (_value : Option DcError)
    (_traceback : Option Unit) : Index × Bool :=
  (self.close, false)

/-- Semantics of using an Index in a Python with-statement: enter, run
the body, and on every termination of the body run exit; when the body
raised and exit returns a falsy value the error re-propagates. -/
def withIndex (idx : Index) (body : Index → Except DcError Unit × Index) :
    Except DcError Unit × Index :=
  let i := idx.enter
  let (r, i') := body i
  match r with
  | .ok _ =>
    let (i'', _suppress) := i'.exit none none none
    (.ok (), i'')
  | .error e =>
    let (i'', suppress) := i'.exit (some e) (some e) none
    (if suppress then .ok () else .error e, i'')

/-- Embedding of DefaultIndexDriver.connect_to_index: pure delegation to
Index.from_config with the same three arguments. -/
def DefaultIndexDriver.connect_to_index (config : Config)
    (application_name : Option String) (validate_connection : Bool) :
    Except DcError Index :=
  Index.from_config config application_name validate_connection

/-- A concrete healthy configuration used by the witnesses. -/
def sampleConfig : Config :=
  { url := "postgresql://localhost/datacube", good := true, hasSchema := false }

/-- A concrete fresh connection handle with no injected faults, used by
the witnesses. -/
def sampleDb : PostgresDb :=
  { url := "postgresql://localhost/datacube"
  , initialized := false
  , idleConnections := 1
  , initFails := false
  , failingDocs := []
  , initCalls := []
  , application_name := none
  , validated := true }

/-- A concrete fresh index over `sampleDb`, used by the witnesses. -/
def sampleIndex : Index :=
  Index.create sampleDb

/-- A concrete fresh index whose backing store raises a seeding error on
the second default document, used by the error-propagation witness. -/
def sampleFaultIndex : Index :=
  Index.create { sampleDb with failingDocs := ["telemetry"] }

theorem seedDefaults_ok (mt : MetadataTypeResource) (docs : List String)
    (h : ∀ d ∈ docs, d ∉ mt.db.failingDocs) :
    seedDefaults mt docs =
      (.ok (), { mt with added := mt.added ++ docs.map (fun d => ({ doc := d }, true)) }) := by
  induction docs generalizing mt with
  | nil => simp [seedDefaults]
  | cons d rest ih =>
    have hd : d ∉ mt.db.failingDocs := h d (List.mem_cons_self d rest)
    rw [seedDefaults]
    simp only [MetadataTypeResource.add, MetadataTypeResource.from_doc, if_neg hd]
    rw [ih]
    · simp
    · intro x hx
      exact h x (List.mem_cons_of_mem d hx)

theorem seedDefaults_fail (mt : MetadataTypeResource) (pre post : List String) (d : String)
    (hpre : ∀ x ∈ pre, x ∉ mt.db.failingDocs)
    (hd : d ∈ mt.db.failingDocs) :
    seedDefaults mt (pre ++ d :: post) =
      (.error (.seeding d),
       { mt with added := mt.added ++ pre.map (fun x => ({ doc := x }, true)) }) := by
  induction pre generalizing mt with
  | nil =>
    rw [List.nil_append, seedDefaults]
    simp [MetadataTypeResource.add, MetadataTypeResource.from_doc, hd]
  | cons a rest ih =>
    have ha : a ∉ mt.db.failingDocs := hpre a (List.mem_cons_self a rest)
    rw [List.cons_append, seedDefaults]
    simp only [MetadataTypeResource.add, MetadataTypeResource.from_doc, if_neg ha]
    rw [ih]
    · simp
    · intro x hx
      exact hpre x (List.mem_cons_of_mem a hx)
    · exact hd

/-- C3: constructing an Index from a connection handle builds the four
resource managers in the fixed dependency order (metadata-types before
products, products before datasets), with products receiving the
already-constructed metadata-types manager, datasets receiving the
already-constructed products manager, and all four managers receiving
the same single connection handle owned by the facade. -/
theorem construction_wiring_and_order (db : PostgresDb) :
    (Index.create db)._db = db ∧
    (Index.create db).users.db = db ∧
    (Index.create db).metadata_types.db = db ∧
    (Index.create db).products.db = db ∧
    (Index.create db).datasets.db = db ∧
    (Index.create db).products.metadata_type_resource = (Index.create db).metadata_types ∧
    (Index.create db).datasets.product_resource = (Index.create db).products ∧
    Index.constructionOrder.indexOf ResourceKind.metadata_types <
      Index.constructionOrder.indexOf ResourceKind.products ∧
    Index.constructionOrder.indexOf ResourceKind.products <
      Index.constructionOrder.indexOf ResourceKind.datasets :=
  ⟨rfl, rfl, rfl, rfl, rfl, rfl, rfl, by decide, by decide⟩

/-- C9: the driver entry point is pure delegation: connect_to_index on
the default index driver returns, for every input, the same result and
the same errors as calling Index.from_config directly. -/
theorem connect_to_index_delegates (config : Config) (application_name : Option String)
    (validate_connection : Bool) :
    DefaultIndexDriver.connect_to_index config application_name validate_connection =
      Index.from_config config application_name validate_connection :=
  rfl

/-- C2: for every Index used via enter/exit bracketing, exiting the
scope invokes close on the underlying connection handle on every exit
path: the state after the with-block is always the close of the state
the body ended in, whether the body completed normally or raised. -/
theorem scoped_exit_always_closes (idx : Index)
    (body : Index → Except DcError Unit × Index) :
    (withIndex idx body).2 = Index.close ((body (Index.enter idx)).2) := by
  unfold withIndex
  rcases hb : body (Index.enter idx) with ⟨r, i'⟩
  cases r <;> simp [hb, Index.exit]

/-- C10: entering the scope returns the very same Index instance, the
exit handler returns a falsy value whatever exception it is passed, and
an error raised inside the scope is never suppressed: after close runs,
the same error propagates out of the with-block. -/
theorem scoped_enter_identity_and_error_propagation (idx : Index)
    (body : Index → Except DcError Unit × Index) (e : DcError)
    (h : (body (Index.enter idx)).1 = .error e) :
    Index.enter idx = idx ∧
    (∀ t v tb, (Index.exit idx t v tb).2 = false) ∧
    (withIndex idx body).1 = .error e := by
  refine ⟨rfl, fun t v tb => rfl, ?_⟩
  unfold withIndex
  rcases hb : body (Index.enter idx) with ⟨r, i'⟩
  rw [hb] at h
  simp only at h
  cases r with
  | ok u => exact absurd h (by simp)
  | error a =>
    simp only [Except.error.injEq] at h
    subst h
    simp [hb, Index.exit]

/-- Witness for C10 at a concrete index and a body that raises a
connectivity error. -/
theorem scoped_enter_identity_and_error_propagation_witness :
    Index.enter sampleIndex = sampleIndex ∧
    (∀ t v tb, (Index.exit sampleIndex t v tb).2 = false) ∧
    (withIndex sampleIndex (fun i => (.error .connectivity, i))).1 = .error .connectivity :=
  scoped_enter_identity_and_error_propagation sampleIndex
    (fun i => (.error .connectivity, i)) .connectivity rfl

/-- C8: the url accessor is read-only: it returns the underlying
connection handle's canonical address, and its value is unchanged by
close and by init_db (this layer never mutates it). -/
theorem url_read_only (idx : Index) :
    Index.url idx = idx._db.url ∧
    (Index.close idx).url = Index.url idx ∧
    ∀ wdt wp, (Index.init_db idx wdt wp).2.url = Index.url idx := by
  refine ⟨rfl, rfl, ?_⟩
  intro wdt wp
  unfold Index.init_db PostgresDb.init
  by_cases h : idx._db.initFails
  · simp [h]
  · simp only [h, Bool.false_eq_true, if_false]
    by_cases h2 : (!idx._db.initialized && wdt) = true
    · simp only [h2, if_true]
      rcases hs : seedDefaults idx.metadata_types default_metadata_type_docs with ⟨r, mt⟩
      cases r <;> simp [Index.url]
    · simp [h2, Index.url]

/-- C1: init_db returns exactly the boolean the connection handle's init
operation reports, and the default metadata-type documents are seeded if
and only if that boolean is true and with_default_types is true; in
particular a fresh store with with_default_types false returns true and
adds nothing, and an already-initialized store is never seeded. -/
theorem init_db_returns_and_seeds (self : Index) (wdt wp b : Bool) (db' : PostgresDb)
    (hinit : PostgresDb.init self._db wp = .ok (b, db'))
    (hadd : ∀ d ∈ default_metadata_type_docs, d ∉ self.metadata_types.db.failingDocs) :
    (Index.init_db self wdt wp).1 = .ok b ∧
    (Index.init_db self wdt wp).2.metadata_types.added =
      self.metadata_types.added ++
        (if b && wdt then default_metadata_type_docs.map (fun d => ({ doc := d }, true))
         else []) := by
  unfold Index.init_db
  rw [hinit]
  by_cases h2 : (b && wdt) = true
  · simp only [h2, if_true]
    rw [seedDefaults_ok _ _ hadd]
    simp
  · simp [h2]

/-- Witness for C1: a fresh store with with_default_types false reports a
first-time initialization and adds no default documents. -/
theorem init_db_returns_and_seeds_witness :
    (Index.init_db sampleIndex false true).1 = .ok true ∧
    (Index.init_db sampleIndex false true).2.metadata_types.added =
      sampleIndex.metadata_types.added ++
        (if true && false then default_metadata_type_docs.map (fun d => ({ doc := d }, true))
         else []) :=
  init_db_returns_and_seeds sampleIndex false true true _ rfl (by decide)

/-- C5: when init_db performs seeding (first-time initialization with
with_default_types true), it adds the fixed ordered default documents
exactly once each, in order, requesting the table-lock mode on every
add. -/
theorem init_db_seeds_in_order_with_lock (self : Index) (wp : Bool)
    (hfail : self._db.initFails = false)
    (hfresh : self._db.initialized = false)
    (hadd : ∀ d ∈ default_metadata_type_docs, d ∉ self.metadata_types.db.failingDocs) :
    (Index.init_db self true wp).2.metadata_types.added =
      self.metadata_types.added ++
        default_metadata_type_docs.map (fun d => ({ doc := d }, true)) ∧
    default_metadata_type_docs.Nodup ∧
    ∀ p ∈ default_metadata_type_docs.map
        (fun d => (({ doc := d } : MetadataType), true)), p.2 = true := by
  refine ⟨?_, by decide, ?_⟩
  · unfold Index.init_db PostgresDb.init
    simp only [hfail, Bool.false_eq_true, if_false, hfresh, Bool.not_false, Bool.and_self,
      if_true]
    rw [seedDefaults_ok _ _ hadd]
  · intro p hp
    rcases List.mem_map.mp hp with ⟨d, _, rfl⟩
    rfl

/-- Witness for C5: the fresh sample index seeds both default documents
in order, each with the table-lock flag set. -/
theorem init_db_seeds_in_order_with_lock_witness :
    (Index.init_db sampleIndex true true).2.metadata_types.added =
      sampleIndex.metadata_types.added ++
        default_metadata_type_docs.map (fun d => ({ doc := d }, true)) ∧
    default_metadata_type_docs.Nodup ∧
    ∀ p ∈ default_metadata_type_docs.map
        (fun d => (({ doc := d } : MetadataType), true)), p.2 = true :=
  init_db_seeds_in_order_with_lock sampleIndex true rfl rfl (by decide)

/-- C6: every error raised during init_db propagates to the caller
unchanged: a schema-initialization failure leaves the facade untouched,
and a failure while adding a default document surfaces that very error
while the documents added before it remain added (no rollback at this
layer). -/
theorem init_db_error_propagation (self : Index) (wdt wp : Bool)
    (pre post : List String) (d : String)
    (hsplit : default_metadata_type_docs = pre ++ d :: post)
    (hpre : ∀ x ∈ pre, x ∉ self.metadata_types.db.failingDocs)
    (hd : d ∈ self.metadata_types.db.failingDocs) :
    (self._db.initFails = true → Index.init_db self wdt wp = (.error .schemaInit, self)) ∧
    (self._db.initFails = false → self._db.initialized = false → wdt = true →
      (Index.init_db self wdt wp).1 = .error (.seeding d) ∧
      (Index.init_db self wdt wp).2.metadata_types.added =
        self.metadata_types.added ++ pre.map (fun x => ({ doc := x }, true))) := by
  constructor
  · intro hfail
    unfold Index.init_db PostgresDb.init
    simp [hfail]
  · intro hfail hfresh hwdt
    subst hwdt
    unfold Index.init_db PostgresDb.init
    simp only [hfail, Bool.false_eq_true, if_false, hfresh, Bool.not_false, Bool.and_self,
      if_true]
    rw [hsplit, seedDefaults_fail _ _ _ _ hpre hd]
    simp

/-- Witness for C6: on a store that fails the add of the second default
document, init_db surfaces that seeding error and the first document
remains added. -/
theorem init_db_error_propagation_witness :
    (Index.init_db sampleFaultIndex true true).1 = .error (.seeding "telemetry") ∧
    (Index.init_db sampleFaultIndex true true).2.metadata_types.added =
      sampleFaultIndex.metadata_types.added ++
        (["eo"].map (fun x => ({ doc := x }, true))) :=
  (init_db_error_propagation sampleFaultIndex true true ["eo"] [] "telemetry" rfl
    (by decide) (by decide)).2 rfl rfl rfl

/-- C4: from_config with eager validation either returns a fully-wired
facade whose connection was validated, recording the application label
unchanged, or raises the connectivity error before returning; the whole
call is a single pass-through to the connection handle's
construct-from-configuration operation, with no retry. -/
theorem from_config_validated_or_error (config : Config) (application_name : Option String) :
    Index.from_config config application_name true =
      Except.map Index.create (PostgresDb.from_config config application_name true) ∧
    (config.good = false →
      Index.from_config config application_name true = .error .connectivity) ∧
    (config.good = true →
      ∃ idx, Index.from_config config application_name true = .ok idx ∧
        idx._db.validated = true ∧ idx._db.application_name = application_name ∧
        idx._db.url = config.url) := by
  refine ⟨?_, ?_, ?_⟩
  · unfold Index.from_config
    cases PostgresDb.from_config config application_name true <;> simp [Except.map]
  · intro hg
    simp [Index.from_config, PostgresDb.from_config, hg]
  · intro hg
    unfold Index.from_config PostgresDb.from_config
    simp only [hg, Bool.not_true, Bool.and_false, Bool.false_eq_true, if_false]
    exact ⟨_, rfl, rfl, rfl, rfl⟩

/-- Witness for C4: on a healthy configuration, from_config returns a
validated handle carrying the label and the configured address. -/
theorem from_config_validated_or_error_witness :
    ∃ idx, Index.from_config sampleConfig none true = .ok idx ∧
      idx._db.validated = true ∧ idx._db.application_name = none ∧
      idx._db.url = sampleConfig.url :=
  (from_config_validated_or_error sampleConfig none).2.2 rfl

/-- C7: close is idempotent: closing twice equals closing once, close
touches nothing but the idle-connection count of the underlying handle,
and it does not invalidate the handle: the url and the registries are
unchanged and a later init_db reports the same result as without the
close. -/
theorem close_idempotent_and_nondestructive (idx : Index) :
    Index.close (Index.close idx) = Index.close idx ∧
    (Index.close idx)._db = { idx._db with idleConnections := 0 } ∧
    (Index.close idx).metadata_types = idx.metadata_types ∧
    (Index.close idx).url = Index.url idx ∧
    ∀ wdt wp, (Index.init_db (Index.close idx) wdt wp).1 = (Index.init_db idx wdt wp).1 := by
  refine ⟨rfl, rfl, rfl, rfl, ?_⟩
  intro wdt wp
  unfold Index.init_db PostgresDb.init Index.close PostgresDb.close
  by_cases h : idx._db.initFails
  · simp [h]
  · simp only [h, Bool.false_eq_true, if_false]
    by_cases h2 : (!idx._db.initialized && wdt) = true
    · simp only [h2, if_true]
      rcases hs : seedDefaults idx.metadata_types default_metadata_type_docs with ⟨r, mt⟩
      cases r <;> simp [hs]
    · simp [h2]

end Datacube
